import Mathlib

/-!
Shallow embedding of `src/lookout_validator_ssl.py` (LookoutKeyValidator).

The program validates API application keys in two HTTP phases:
a token request (`get_access_token`) followed by a probe request
(`test_api_access`), assembling a per-key `ValidationResult`.
HTTP responses are modelled as an oracle value (`NetResult`) supplied to
each phase; JSON bodies are modelled as association lists of `JVal`.
Python exceptions that escape `validate_key` (the raw subscript
`token_data[...]` can raise `KeyError`) are modelled by the `Except`
error channel.
-/

/-- A JSON value as the Python code consumes it: strings, integers,
booleans and null are the only shapes the program ever reads. -/
inductive JVal where
  | str (s : String)
  | num (n : Int)
  | bool (b : Bool)
  | null
deriving DecidableEq, Repr

/-- A parsed JSON object body: an association list from field names to
values (Python dict access patterns `d[k]`, `d.get(k)`, `d.get(k, v)`). -/
abbrev JObj := List (String × JVal)

/-- Python `d.get(k)`: the first binding of `k`, or absent. -/
def JObj.find? (o : JObj) (k : String) : Option JVal :=
  match o with
  | [] => none
  | (k2, v) :: rest => if k2 = k then some v else JObj.find? rest k

/-- Python `d.get(k, default)`. -/
def JObj.getD (o : JObj) (k : String) (d : JVal) : JVal :=
  (JObj.find? o k).getD d

/-- Python `str(...)` as applied by the f-strings of the program. -/
def JVal.pyStr : JVal → String
  | .str s => s
  | .num n => toString n
  | .bool b => if b then "True" else "False"
  | .null => "None"

/-- The outcome of one HTTP request as seen by the caller: either a
`requests.exceptions.RequestException` (DNS, refused, timeout, TLS), or a
response carrying a status code, a parsed JSON body and the raw text. -/
inductive NetResult where
  | exn (msg : String)
  | resp (status : Nat) (body : JObj) (text : String)
deriving DecidableEq, Repr

/-- `LookoutAPIValidator.get_access_token`: POST to the token endpoint.
The HTTP exchange itself is the oracle `net`; this definition is the
response handling of lines 69-79 of the source. -/
def get_access_token (net : NetResult) : Bool × JObj :=
  match net with
  | .resp status body text =>
    if status = 200 then
      (true, body)
    else
      (false, [("error", JVal.str ("HTTP " ++ toString status)),
               ("message", JVal.str text),
               ("status_code", JVal.num (Int.ofNat status))])
  | .exn msg => (false, [("error", JVal.str "Network error"),
                         ("message", JVal.str msg)])

/-- `LookoutAPIValidator.test_api_access`: GET to the probe endpoint,
response handling of lines 108-122 of the source. On 200 the returned
payload is rebuilt from the body: `device_count = data.get('count', 0)`
and `api_accessible = True`. -/
def test_api_access (net : NetResult) : Bool × JObj :=
  match net with
  | .resp status body text =>
    if status = 200 then
      (true, [("device_count", JObj.getD body "count" (JVal.num 0)),
              ("api_accessible", JVal.bool true)])
    else
      (false, [("error", JVal.str ("HTTP " ++ toString status)),
               ("message", JVal.str text),
               ("status_code", JVal.num (Int.ofNat status))])
  | .exn msg => (false, [("error", JVal.str "Network error"),
                         ("message", JVal.str msg)])

/-- The `token_info` sub-dictionary built on token success
(lines 158-163): every field read with `.get`, `scope` defaulting to the
empty string, the others to Python `None` (modelled as absent). -/
structure TokenInfo where
  token_type : Option JVal
  expires_in : Option JVal
  expires_at : Option JVal
  scope : JVal
deriving DecidableEq, Repr

/-- The result dictionary assembled by `validate_key` (lines 135-184).
Keys that the Python code only adds later (`token_info`, `api_info`) are
`Option` fields, absent in the initial skeleton. -/
structure ValidationResult where
  application_key : String
  timestamp : String
  valid : Bool
  token_obtained : Bool
  api_accessible : Bool
  ssl_verify_skipped : Bool
  errors : List String
  token_info : Option TokenInfo
  api_info : Option JObj
deriving DecidableEq, Repr

/-- `LookoutAPIValidator.validate_key` (lines 124-184). `tokenNet` is the
network outcome of the token POST for this key, `apiNet` the outcome of
the probe GET as a function of the bearer token used. The `timestamp`
(Python `datetime.now().isoformat()`) is threaded as an input. The raw
subscript `token_data['access_token']` of line 169 raises `KeyError` when
the field is missing; that uncaught exception is the `Except.error`
channel. -/
def validate_key (application_key : String) (timestamp : String)
    (skip_ssl_verify : Bool) (tokenNet : NetResult)
    (apiNet : JVal → NetResult) : Except String ValidationResult :=
  let result : ValidationResult :=
    { application_key :=
        if application_key.length > 20
        then application_key.take 20 ++ "..."
        else application_key,
      timestamp := timestamp,
      valid := false,
      token_obtained := false,
      api_accessible := false,
      ssl_verify_skipped := skip_ssl_verify,
      errors := [],
      token_info := none,
      api_info := none }
  let tok := get_access_token tokenNet
  let token_success := tok.1
  let token_data := tok.2
  if token_success = false then
    let e := JVal.pyStr (JObj.getD token_data "error" (JVal.str "Unknown error"))
    Except.ok { result with errors := result.errors ++ ["Token request failed: " ++ e] }
  else
    let result :=
      { result with
        token_obtained := true,
        token_info := some
          { token_type := JObj.find? token_data "token_type",
            expires_in := JObj.find? token_data "expires_in",
            expires_at := JObj.find? token_data "expires_at",
            scope := JObj.getD token_data "scope" (JVal.str "") } }
    match JObj.find? token_data "access_token" with
    | none => Except.error "KeyError: access_token"
    | some access_token =>
      let api := test_api_access (apiNet access_token)
      if api.1 = false then
        let e := JVal.pyStr (JObj.getD api.2 "error" (JVal.str "Unknown error"))
        Except.ok { result with errors := result.errors ++ ["API access failed: " ++ e] }
      else
        Except.ok { result with
          api_accessible := true,
          api_info := some api.2,
          valid := true }

/-- Python `str.strip()`: drop leading and trailing whitespace. -/
def pyStrip (s : String) : String :=
  String.mk (((s.data.dropWhile Char.isWhitespace).reverse.dropWhile
    Char.isWhitespace).reverse)

/-- Python `str.startswith(hash)` as the program uses it: whether the
first character is the hash mark. -/
def startsWithHash (s : String) : Bool :=
  match s.data with
  | [] => false
  | c :: _ => c = '#'

/-- `load_keys_from_file` (lines 186-197): the file is modelled by its
sequence of lines, as Python iterates it (`none` models
`FileNotFoundError` / read errors, which return the empty list); kept
lines are stripped, and a line is kept when its stripped form is nonempty
and does not start with a hash mark. -/
def load_keys_from_file (contents : Option (List String)) : List String :=
  match contents with
  | none => []
  | some lines =>
      (lines.filter
        (fun line => (pyStrip line != "") && !(startsWithHash (pyStrip line)))).map
        pyStrip

/-- The key-resolution step of `main` (lines 229-240): a `--file`
argument (with its contents, `none` when unreadable) takes precedence;
otherwise a positional or `--key` argument, where Python truthiness makes
the empty string count as no key given. An empty result list makes `main`
exit with code 1 before any network call. -/
def resolve_keys (fileArg : Option (Option (List String))) (keyArg : Option String) :
    List String :=
  match fileArg with
  | some contents => load_keys_from_file contents
  | none =>
    match keyArg with
    | none => []
    | some k => if k = "" then [] else [k]

/-- What `main` decides: the process exit code and whether saving the
optional output file failed (which is only printed, lines 287-297). -/
structure MainOutcome where
  exitCode : Nat
  saveFailed : Bool
deriving DecidableEq, Repr

/-- The decision flow of `main` (lines 229-297) after argument parsing:
resolve keys (exit 1 when none), validate each key through the oracle
`validate`, optionally attempt the output file (a failure is caught and
reported), and exit 1 iff some result is invalid, 0 otherwise. -/
def mainRun (fileArg : Option (Option (List String))) (keyArg : Option String)
    (validate : String → ValidationResult)
    (outputRequested : Bool) (outputWriteFails : Bool) : MainOutcome :=
  let keys := resolve_keys fileArg keyArg
  if keys = [] then
    { exitCode := 1, saveFailed := false }
  else
    let results := keys.map validate
    let saveFailed := outputRequested && outputWriteFails
    { exitCode := if results.all (fun r => r.valid) then 0 else 1,
      saveFailed := saveFailed }

/-! ## Equation lemmas: the value of `validate_key` on each control path -/

/-- Shared skeleton of the result record, as built at the top of
`validate_key` (lines 135-143). -/
def initResult (k ts : String) (sv : Bool) : ValidationResult :=
  { application_key := if k.length > 20 then k.take 20 ++ "..." else k,
    timestamp := ts, valid := false, token_obtained := false,
    api_accessible := false, ssl_verify_skipped := sv, errors := [],
    token_info := none, api_info := none }

/-- The `token_info` record built from a 200 token body (lines 158-163). -/
def tokenInfoOf (body : JObj) : TokenInfo :=
  { token_type := JObj.find? body "token_type",
    expires_in := JObj.find? body "expires_in",
    expires_at := JObj.find? body "expires_at",
    scope := JObj.getD body "scope" (JVal.str "") }

lemma validate_key_token_exn (k ts : String) (sv : Bool) (m : String)
    (an : JVal → NetResult) :
    validate_key k ts sv (NetResult.exn m) an =
      Except.ok { initResult k ts sv with
        errors := ["Token request failed: Network error"] } := rfl

lemma validate_key_token_http (k ts : String) (sv : Bool) (s : Nat)
    (body : JObj) (text : String) (an : JVal → NetResult) (hs : s ≠ 200) :
    validate_key k ts sv (NetResult.resp s body text) an =
      Except.ok { initResult k ts sv with
        errors := ["Token request failed: " ++ ("HTTP " ++ toString s)] } := by
  simp [validate_key, get_access_token, hs, JObj.getD, JObj.find?, JVal.pyStr,
    initResult]

lemma validate_key_missing_access_token (k ts : String) (sv : Bool)
    (body : JObj) (text : String) (an : JVal → NetResult)
    (hfind : JObj.find? body "access_token" = none) :
    validate_key k ts sv (NetResult.resp 200 body text) an =
      Except.error "KeyError: access_token" := by
  simp [validate_key, get_access_token, hfind]

lemma validate_key_api_exn (k ts : String) (sv : Bool) (body : JObj)
    (text : String) (an : JVal → NetResult) (a : JVal) (m : String)
    (hfind : JObj.find? body "access_token" = some a)
    (han : an a = NetResult.exn m) :
    validate_key k ts sv (NetResult.resp 200 body text) an =
      Except.ok { initResult k ts sv with
        token_obtained := true, token_info := some (tokenInfoOf body),
        errors := ["API access failed: Network error"] } := by
  simp [validate_key, get_access_token, test_api_access, hfind, han,
    JObj.getD, JObj.find?, JVal.pyStr, initResult, tokenInfoOf]

lemma validate_key_api_http (k ts : String) (sv : Bool) (body : JObj)
    (text : String) (an : JVal → NetResult) (a : JVal) (s2 : Nat)
    (body2 : JObj) (text2 : String)
    (hfind : JObj.find? body "access_token" = some a)
    (han : an a = NetResult.resp s2 body2 text2) (hs2 : s2 ≠ 200) :
    validate_key k ts sv (NetResult.resp 200 body text) an =
      Except.ok { initResult k ts sv with
        token_obtained := true, token_info := some (tokenInfoOf body),
        errors := ["API access failed: " ++ ("HTTP " ++ toString s2)] } := by
  simp [validate_key, get_access_token, test_api_access, hfind, han, hs2,
    JObj.getD, JObj.find?, JVal.pyStr, initResult, tokenInfoOf]

lemma validate_key_success (k ts : String) (sv : Bool) (body : JObj)
    (text : String) (an : JVal → NetResult) (a : JVal)
    (body2 : JObj) (text2 : String)
    (hfind : JObj.find? body "access_token" = some a)
    (han : an a = NetResult.resp 200 body2 text2) :
    validate_key k ts sv (NetResult.resp 200 body text) an =
      Except.ok { initResult k ts sv with
        token_obtained := true, token_info := some (tokenInfoOf body),
        api_accessible := true,
        api_info := some [("device_count", JObj.getD body2 "count" (JVal.num 0)),
                          ("api_accessible", JVal.bool true)],
        valid := true } := by
  simp [validate_key, get_access_token, test_api_access, hfind, han,
    initResult, tokenInfoOf]

/-- Every `ValidationResult` actually returned by `validate_key` has one
of three shapes: token-phase failure, API-phase failure, or full
success. -/
lemma validate_key_ok_shape (k ts : String) (sv : Bool) (tn : NetResult)
    (an : JVal → NetResult) (r : ValidationResult)
    (h : validate_key k ts sv tn an = Except.ok r) :
    (∃ e, r = { initResult k ts sv with
        errors := ["Token request failed: " ++ e] }) ∨
    (∃ body e, r = { initResult k ts sv with
        token_obtained := true, token_info := some (tokenInfoOf body),
        errors := ["API access failed: " ++ e] }) ∨
    (∃ body ai, r = { initResult k ts sv with
        token_obtained := true, token_info := some (tokenInfoOf body),
        api_accessible := true, api_info := some ai, valid := true }) := by
  cases tn with
  | exn m =>
    rw [validate_key_token_exn] at h
    injection h with h
    exact Or.inl ⟨"Network error", h.symm⟩
  | resp s body text =>
    by_cases hs : s = 200
    · subst hs
      cases hfind : JObj.find? body "access_token" with
      | none =>
        rw [validate_key_missing_access_token k ts sv body text an hfind] at h
        exact absurd h (by simp)
      | some a =>
        cases han : an a with
        | exn m =>
          rw [validate_key_api_exn k ts sv body text an a m hfind han] at h
          injection h with h
          exact Or.inr (Or.inl ⟨body, "Network error", h.symm⟩)
        | resp s2 body2 text2 =>
          by_cases hs2 : s2 = 200
          · subst hs2
            rw [validate_key_success k ts sv body text an a body2 text2 hfind han] at h
            injection h with h
            exact Or.inr (Or.inr ⟨body, _, h.symm⟩)
          · rw [validate_key_api_http k ts sv body text an a s2 body2 text2
              hfind han hs2] at h
            injection h with h
            exact Or.inr (Or.inl ⟨body, "HTTP " ++ toString s2, h.symm⟩)
    · rw [validate_key_token_http k ts sv s body text an hs] at h
      injection h with h
      exact Or.inl ⟨"HTTP " ++ toString s, h.symm⟩

/-! ## Claim theorems -/

/-- C1: in every result returned by `validate_key`, `valid` holds iff
both `token_obtained` and `api_accessible` hold, and `errors` is empty
iff `valid` holds. -/
theorem validate_key_valid_iff_phases (k ts : String) (sv : Bool)
    (tn : NetResult) (an : JVal → NetResult) (r : ValidationResult)
    (h : validate_key k ts sv tn an = Except.ok r) :
    r.valid = (r.token_obtained && r.api_accessible) ∧
      (r.errors = [] ↔ r.valid = true) := by
  rcases validate_key_ok_shape k ts sv tn an r h with
    ⟨e, rfl⟩ | ⟨body, e, rfl⟩ | ⟨body, ai, rfl⟩ <;> simp [initResult]

/-- A concrete token-phase-failure run of `validate_key`, used to witness
the hypotheses of several claim theorems. -/
def tokenExnRun : ValidationResult :=
  { initResult "k" "t" false with
    errors := ["Token request failed: Network error"] }

/-- Witness for C1 at a concrete failing run. -/
theorem validate_key_valid_iff_phases_witness :
    validate_key "k" "t" false (NetResult.exn "boom") (fun _ => NetResult.exn "x") =
        Except.ok tokenExnRun ∧
      (tokenExnRun.valid = (tokenExnRun.token_obtained && tokenExnRun.api_accessible) ∧
        (tokenExnRun.errors = [] ↔ tokenExnRun.valid = true)) :=
  ⟨rfl, validate_key_valid_iff_phases "k" "t" false (NetResult.exn "boom")
    (fun _ => NetResult.exn "x") tokenExnRun rfl⟩

/-- C9: in every result returned by `validate_key`, a successful API
phase implies a successful token phase. -/
theorem api_accessible_implies_token_obtained (k ts : String) (sv : Bool)
    (tn : NetResult) (an : JVal → NetResult) (r : ValidationResult)
    (h : validate_key k ts sv tn an = Except.ok r)
    (hapi : r.api_accessible = true) : r.token_obtained = true := by
  rcases validate_key_ok_shape k ts sv tn an r h with
    ⟨e, rfl⟩ | ⟨body, e, rfl⟩ | ⟨body, ai, rfl⟩ <;> simp_all [initResult]

/-- A concrete fully-successful run of `validate_key`. -/
def successRun : ValidationResult :=
  { initResult "k" "t" false with
    token_obtained := true,
    token_info := some (tokenInfoOf [("access_token", JVal.str "tok")]),
    api_accessible := true,
    api_info := some [("device_count", JVal.num 7),
                      ("api_accessible", JVal.bool true)],
    valid := true }

/-- Witness for C9 at a concrete successful run. -/
theorem api_accessible_implies_token_obtained_witness :
    validate_key "k" "t" false
        (NetResult.resp 200 [("access_token", JVal.str "tok")] "")
        (fun _ => NetResult.resp 200 [("count", JVal.num 7)] "") =
        Except.ok successRun ∧
      successRun.api_accessible = true ∧ successRun.token_obtained = true :=
  ⟨rfl, rfl, api_accessible_implies_token_obtained "k" "t" false
    (NetResult.resp 200 [("access_token", JVal.str "tok")] "")
    (fun _ => NetResult.resp 200 [("count", JVal.num 7)] "") successRun rfl rfl⟩

/-- C10: every result returned by `validate_key` carries at most one
error string. -/
theorem errors_length_at_most_one (k ts : String) (sv : Bool)
    (tn : NetResult) (an : JVal → NetResult) (r : ValidationResult)
    (h : validate_key k ts sv tn an = Except.ok r) :
    r.errors.length ≤ 1 := by
  rcases validate_key_ok_shape k ts sv tn an r h with
    ⟨e, rfl⟩ | ⟨body, e, rfl⟩ | ⟨body, ai, rfl⟩ <;> simp [initResult]

/-- Witness for C10 at a concrete failing run. -/
theorem errors_length_at_most_one_witness :
    validate_key "k" "t" false (NetResult.exn "boom") (fun _ => NetResult.exn "x") =
        Except.ok tokenExnRun ∧
      tokenExnRun.errors.length ≤ 1 :=
  ⟨rfl, errors_length_at_most_one "k" "t" false (NetResult.exn "boom")
    (fun _ => NetResult.exn "x") tokenExnRun rfl⟩

/-- C3: when the token request returns an HTTP status other than 200, the
returned result has no token, no API access, exactly one error entry
describing the HTTP failure, and no token metadata. -/
theorem token_http_failure_result (k ts : String) (sv : Bool) (s : Nat)
    (body : JObj) (text : String) (an : JVal → NetResult) (hs : s ≠ 200)
    (r : ValidationResult)
    (h : validate_key k ts sv (NetResult.resp s body text) an = Except.ok r) :
    r.token_obtained = false ∧ r.api_accessible = false ∧
      r.errors = ["Token request failed: " ++ ("HTTP " ++ toString s)] ∧
      r.token_info = none := by
  rw [validate_key_token_http k ts sv s body text an hs] at h
  injection h with h
  subst h
  simp [initResult]

/-- Witness for C3: a 401 token response. -/
theorem token_http_failure_result_witness :
    (401 : Nat) ≠ 200 ∧
      validate_key "k" "t" false (NetResult.resp 401 [] "unauthorized")
          (fun _ => NetResult.exn "x") =
        Except.ok { initResult "k" "t" false with
          errors := ["Token request failed: HTTP 401"] } ∧
      ({ initResult "k" "t" false with
          errors := ["Token request failed: HTTP 401"] } : ValidationResult).token_obtained = false ∧
      ({ initResult "k" "t" false with
          errors := ["Token request failed: HTTP 401"] } : ValidationResult).errors =
        ["Token request failed: " ++ ("HTTP " ++ toString (401 : Nat))] :=
  ⟨by decide, rfl,
    (token_http_failure_result "k" "t" false 401 [] "unauthorized"
      (fun _ => NetResult.exn "x") (by decide) _ rfl).1,
    (token_http_failure_result "k" "t" false 401 [] "unauthorized"
      (fun _ => NetResult.exn "x") (by decide) _ rfl).2.2.1⟩

/-- C4: when the token request returns 200 and yields a bearer token but
the probe request returns a status other than 200, the returned result
has the token phase succeeded with the token metadata (each field read
with its default), no API access, and exactly one error entry describing
the probe failure. -/
theorem probe_http_failure_result (k ts : String) (sv : Bool) (body : JObj)
    (text : String) (an : JVal → NetResult) (a : JVal) (s2 : Nat)
    (body2 : JObj) (text2 : String)
    (hfind : JObj.find? body "access_token" = some a)
    (han : an a = NetResult.resp s2 body2 text2) (hs2 : s2 ≠ 200)
    (r : ValidationResult)
    (h : validate_key k ts sv (NetResult.resp 200 body text) an = Except.ok r) :
    r.token_obtained = true ∧ r.token_info = some (tokenInfoOf body) ∧
      r.api_accessible = false ∧
      r.errors = ["API access failed: " ++ ("HTTP " ++ toString s2)] := by
  rw [validate_key_api_http k ts sv body text an a s2 body2 text2
    hfind han hs2] at h
  injection h with h
  subst h
  simp [initResult]

/-- The token body used by the concrete C4/C5 witnesses. -/
def witnessTokenBody : JObj :=
  [("access_token", JVal.str "tok"), ("expires_in", JVal.num 3600)]

/-- Witness for C4: token 200, probe 403. -/
theorem probe_http_failure_result_witness :
    JObj.find? witnessTokenBody "access_token" = some (JVal.str "tok") ∧
      (403 : Nat) ≠ 200 ∧
      validate_key "k" "t" false (NetResult.resp 200 witnessTokenBody "")
          (fun _ => NetResult.resp 403 [] "forbidden") =
        Except.ok { initResult "k" "t" false with
          token_obtained := true,
          token_info := some (tokenInfoOf witnessTokenBody),
          errors := ["API access failed: HTTP 403"] } ∧
      ({ initResult "k" "t" false with
          token_obtained := true,
          token_info := some (tokenInfoOf witnessTokenBody),
          errors := ["API access failed: HTTP 403"] } : ValidationResult).token_obtained = true :=
  ⟨rfl, by decide, rfl,
    (probe_http_failure_result "k" "t" false witnessTokenBody ""
      (fun _ => NetResult.resp 403 [] "forbidden") (JVal.str "tok") 403 [] "forbidden"
      rfl rfl (by decide) _ rfl).1⟩

/-- C5: when both requests return 200, the returned result is valid and
its API payload carries `device_count` equal to the probe body's `count`
field, defaulting to 0 when absent. -/
theorem both_success_result (k ts : String) (sv : Bool) (body : JObj)
    (text : String) (an : JVal → NetResult) (a : JVal)
    (body2 : JObj) (text2 : String)
    (hfind : JObj.find? body "access_token" = some a)
    (han : an a = NetResult.resp 200 body2 text2)
    (r : ValidationResult)
    (h : validate_key k ts sv (NetResult.resp 200 body text) an = Except.ok r) :
    r.valid = true ∧
      r.api_info = some [("device_count", JObj.getD body2 "count" (JVal.num 0)),
                         ("api_accessible", JVal.bool true)] := by
  rw [validate_key_success k ts sv body text an a body2 text2 hfind han] at h
  injection h with h
  subst h
  simp [initResult]

/-- Witness for C5: token 200, probe 200 with a `count` of 7. -/
theorem both_success_result_witness :
    JObj.find? witnessTokenBody "access_token" = some (JVal.str "tok") ∧
      validate_key "k" "t" false (NetResult.resp 200 witnessTokenBody "")
          (fun _ => NetResult.resp 200 [("count", JVal.num 7)] "") =
        Except.ok { initResult "k" "t" false with
          token_obtained := true,
          token_info := some (tokenInfoOf witnessTokenBody),
          api_accessible := true,
          api_info := some [("device_count", JVal.num 7),
                            ("api_accessible", JVal.bool true)],
          valid := true } ∧
      ({ initResult "k" "t" false with
          token_obtained := true,
          token_info := some (tokenInfoOf witnessTokenBody),
          api_accessible := true,
          api_info := some [("device_count", JVal.num 7),
                            ("api_accessible", JVal.bool true)],
          valid := true } : ValidationResult).valid = true :=
  ⟨rfl, rfl,
    (both_success_result "k" "t" false witnessTokenBody ""
      (fun _ => NetResult.resp 200 [("count", JVal.num 7)] "") (JVal.str "tok")
      [("count", JVal.num 7)] "" rfl rfl _ rfl).1⟩

/-- C6: the redacted identifier in every returned result is the key
itself when its length is at most 20, and its first 20 characters
followed by an ellipsis otherwise. -/
theorem redacted_key_spec (k ts : String) (sv : Bool) (tn : NetResult)
    (an : JVal → NetResult) (r : ValidationResult)
    (h : validate_key k ts sv tn an = Except.ok r) :
    r.application_key = if k.length ≤ 20 then k else k.take 20 ++ "..." := by
  have happ : r.application_key =
      if k.length > 20 then k.take 20 ++ "..." else k := by
    rcases validate_key_ok_shape k ts sv tn an r h with
      ⟨e, rfl⟩ | ⟨body, e, rfl⟩ | ⟨body, ai, rfl⟩ <;> simp [initResult]
  rw [happ]
  by_cases hk : k.length ≤ 20
  · rw [if_neg (by omega), if_pos hk]
  · rw [if_pos (by omega), if_neg hk]

/-- A concrete run with a 25-character key. -/
def longKeyRun : ValidationResult :=
  { initResult "abcdefghijklmnopqrstuvwxy" "t" false with
    errors := ["Token request failed: Network error"] }

set_option maxRecDepth 8000 in
/-- Witness for C6 at a key longer than 20 characters. -/
theorem redacted_key_spec_witness :
    validate_key "abcdefghijklmnopqrstuvwxy" "t" false (NetResult.exn "e")
        (fun _ => NetResult.exn "e") = Except.ok longKeyRun ∧
      longKeyRun.application_key =
        (if ("abcdefghijklmnopqrstuvwxy" : String).length ≤ 20
         then ("abcdefghijklmnopqrstuvwxy" : String)
         else ("abcdefghijklmnopqrstuvwxy" : String).take 20 ++ "...") :=
  ⟨rfl, redacted_key_spec "abcdefghijklmnopqrstuvwxy" "t" false (NetResult.exn "e")
    (fun _ => NetResult.exn "e") longKeyRun rfl⟩

/-- C2 counterexample: a 200 token response whose body lacks
`access_token` makes `validate_key` fail outside its declared error
channel — the uncaught `KeyError` of line 169, not an entry of the
`errors` list of a returned result. -/
theorem missing_access_token_escapes :
    validate_key "k" "t" false (NetResult.resp 200 [] "")
        (fun _ => NetResult.exn "e") =
      Except.error "KeyError: access_token" := rfl

/-- C2 (amended): `validate_key` escapes its declared error channel
exactly when the token request returns HTTP 200 with a body lacking
`access_token`; on every other pair of phase outcomes it returns a
`ValidationResult`. -/
theorem error_escape_iff_missing_access_token (k ts : String) (sv : Bool)
    (tn : NetResult) (an : JVal → NetResult) :
    (∃ e, validate_key k ts sv tn an = Except.error e) ↔
      (∃ body text, tn = NetResult.resp 200 body text ∧
        JObj.find? body "access_token" = none) := by
  constructor
  · rintro ⟨e, he⟩
    cases tn with
    | exn m => rw [validate_key_token_exn] at he; exact absurd he (by simp)
    | resp s body text =>
      by_cases hs : s = 200
      · subst hs
        cases hfind : JObj.find? body "access_token" with
        | none => exact ⟨body, text, rfl, hfind⟩
        | some a =>
          cases han : an a with
          | exn m =>
            rw [validate_key_api_exn k ts sv body text an a m hfind han] at he
            exact absurd he (by simp)
          | resp s2 body2 text2 =>
            by_cases hs2 : s2 = 200
            · subst hs2
              rw [validate_key_success k ts sv body text an a body2 text2
                hfind han] at he
              exact absurd he (by simp)
            · rw [validate_key_api_http k ts sv body text an a s2 body2 text2
                hfind han hs2] at he
              exact absurd he (by simp)
      · rw [validate_key_token_http k ts sv s body text an hs] at he
        exact absurd he (by simp)
  · rintro ⟨body, text, rfl, hfind⟩
    exact ⟨"KeyError: access_token",
      validate_key_missing_access_token k ts sv body text an hfind⟩

/-- C7: across every batch run of `main`, the exit code is 0 iff keys
were resolved and every result is valid (in particular it is nonzero
when no keys were resolved), and a failure to write the optional output
file never changes the exit code. -/
theorem exit_code_iff_all_valid (fa : Option (Option (List String)))
    (ka : Option String) (v : String → ValidationResult)
    (oreq ow ow2 : Bool) :
    ((mainRun fa ka v oreq ow).exitCode = 0 ↔
      (resolve_keys fa ka ≠ [] ∧
        ((resolve_keys fa ka).map v).all (fun r => r.valid) = true)) ∧
    (mainRun fa ka v oreq ow).exitCode = (mainRun fa ka v oreq ow2).exitCode := by
  unfold mainRun
  by_cases hk : resolve_keys fa ka = []
  · simp [hk]
  · by_cases hv : ((resolve_keys fa ka).map v).all (fun r => r.valid) = true <;>
      simp [hk, hv]

/-- The claim C8 read literally: keep the lines of the file in order,
discarding blank (whitespace-only) lines and lines starting with a hash
mark, then strip each retained line. -/
def load_keys_claimed (lines : List String) : List String :=
  (lines.filter
    (fun line => (pyStrip line != "") && !(startsWithHash line))).map pyStrip

/-- C8 counterexample: a line of whitespace followed by a hash mark does
not start with a hash mark, yet `load_keys_from_file` discards it because
the code tests the stripped line. -/
theorem load_keys_hash_after_space_cex :
    load_keys_from_file (some ["  #x", "key1"]) = ["key1"] ∧
      load_keys_claimed ["  #x", "key1"] = ["#x", "key1"] ∧
      load_keys_from_file (some ["  #x", "key1"]) ≠
        load_keys_claimed ["  #x", "key1"] := by
  refine ⟨rfl, rfl, ?_⟩
  decide

/-- Stripping first and filtering on the stripped line commute with
filtering on a predicate of the stripped line and then stripping. -/
lemma filter_strip_comm (q : String → Bool) (l : List String) :
    (l.filter (fun x => q (pyStrip x))).map pyStrip =
      (l.map pyStrip).filter q := by
  induction l with
  | nil => rfl
  | cons x xs ih =>
    by_cases h : q (pyStrip x) = true <;>
      simp [List.filter_cons, h, ih]

/-- C8 (amended): the keys loaded from a file are exactly its stripped
lines in order, dropping those that are empty or start with a hash
mark (the blank/hash test is applied to the stripped line, not the raw
line). -/
theorem load_keys_characterization (lines : List String) :
    load_keys_from_file (some lines) =
      (lines.map pyStrip).filter
        (fun l => (l != "") && !(startsWithHash l)) := by
  unfold load_keys_from_file
  exact filter_strip_comm (fun l => (l != "") && !(startsWithHash l)) lines
